import Mathlib

/-!
Shallow embedding of the STYLO virtual try-on core: the outfit/pose state
held in `src/App.tsx` (history of `OutfitLayer`s, cursor, pose index, busy
flag, error slot), the orchestrator handlers (`handleGarmentSelect`,
`handleRemoveLastGarment`, `handlePoseSelect`, `handleEnhanceImage`), the
derived view `displayImageUrl`, and the error classifier
`getFriendlyErrorMessage` from `src/lib/utils.ts`.

Modelling conventions:
* JavaScript objects keyed by pose-instruction strings (`poseImages:
  Record<string, PoseImage>`) are association lists in insertion order;
  `objGet` is property lookup, `objSet` is the spread update
  `{...obj, [k]: v}` (updates in place when the key exists, otherwise
  appends, exactly as JS key ordering behaves).
* Each async handler is embedded as one atomic function taking the remote
  outcome of the call as an oracle argument (`Except String String`: error
  message or resulting image URL) and returning the post-settlement state
  plus a Bool recording whether the remote call was actually issued.
  This is faithful because the app is single-threaded and the busy guard
  means no other handler runs between call and resolution; `setX(prev =>
  ...)` functional updates therefore see exactly the captured state.
* `String(POSE_INSTRUCTIONS[i])` for an out-of-range `i` is the JS key
  coercion of `undefined`, i.e. the literal string "undefined"
  (`poseKeyAt`).
* JS truthiness on strings (`!url`, `?.standard` guards) is `strTruthy`:
  `undefined`/`null`/`""` are falsy.
* `handlePoseSelect` / `handleEnhanceImage` dereference
  `outfitHistory[currentOutfitIndex].poseImages` without a null check;
  when the cursor is out of range this throws a TypeError before any
  state mutation.  Those handlers return `Option`: `none` models the
  uncaught throw (state untouched).
-/

namespace Stylo

/-- PoseImage from src/types.ts: `{ standard: string; enhanced?: string }`. -/
structure PoseImage where
  standard : String
  enhanced : Option String
deriving DecidableEq, Repr

/-- WardrobeItem from src/types.ts, restricted to the fields the state
machine reads (`id` for identity checks, `name` for loading messages);
the remaining catalog metadata (image_urls, brand, category, price, ...)
is never consulted by the handlers under verification. -/
structure WardrobeItem where
  id : String
  name : String
deriving DecidableEq, Repr

/-- OutfitLayer from src/types.ts: a garment (none for the base model
layer) plus the pose-instruction-keyed image record. -/
structure OutfitLayer where
  garment : Option WardrobeItem
  poseImages : List (String × PoseImage)
deriving DecidableEq, Repr

/-- JS property read `m[k]` on an insertion-ordered object. -/
def objGet (m : List (String × PoseImage)) (k : String) : Option PoseImage :=
  match m with
  | [] => none
  | (k2, v) :: rest => if k2 = k then some v else objGet rest k

/-- JS spread update `{...m, [k]: v}`: overwrites in place when `k` is
already a key, otherwise appends the new key at the end. -/
def objSet (m : List (String × PoseImage)) (k : String) (v : PoseImage) :
    List (String × PoseImage) :=
  match m with
  | [] => [(k, v)]
  | (k2, v2) :: rest => if k2 = k then (k, v) :: rest else (k2, v2) :: objSet rest k v

/-- JS truthiness of a possibly-absent string: `undefined`, `null` and
the empty string are falsy. -/
def strTruthy (x : Option String) : Bool :=
  match x with
  | none => false
  | some v => !(v == "")

/-- POSE_INSTRUCTIONS from src/App.tsx (the fixed six-entry pose list). -/
def POSE_INSTRUCTIONS : List String :=
  ["Full frontal view, hands on hips",
   "Slightly turned, 3/4 view",
   "Side profile view",
   "Jumping in the air, mid-action shot",
   "Walking towards camera",
   "Leaning against a wall"]

/-- JS evaluation of `POSE_INSTRUCTIONS[i]` used as an object key: an
out-of-range index yields `undefined`, which property access coerces to
the string "undefined". -/
def poseKeyAt (i : Nat) : String :=
  (POSE_INSTRUCTIONS.get? i).getD "undefined"

/-- Substring containment on character lists (semantics of JS
`String.prototype.includes`). -/
def charsContain (needle : List Char) : List Char → Bool
  | [] => needle.isEmpty
  | c :: rest => needle.isPrefixOf (c :: rest) || charsContain needle rest

/-- JS `hay.includes(needle)`. -/
def jsIncludes (hay needle : String) : Bool :=
  charsContain needle.toList hay.toList

/-- Character class of the regex fragment `[\w\/.-]` in
src/lib/utils.ts (`\w` is ASCII alphanumeric or underscore). -/
def mimeChar (c : Char) : Bool :=
  c.isAlphanum || c == '_' || c == '/' || c == '.' || c == '-'

/-- First match of `/Unsupported MIME type: ([\w\/.-]+)/` against the raw
(case-sensitive) message: scan left to right for the literal prefix, then
capture the longest nonempty run of `mimeChar`s; a zero-length run at one
position lets the scan continue, as regex matching does. -/
def extractMime : List Char → Option (List Char)
  | [] => none
  | c :: rest =>
    if ("Unsupported MIME type: ".toList).isPrefixOf (c :: rest) then
      let afterPrefix := (c :: rest).drop ("Unsupported MIME type: ".toList).length
      let run := afterPrefix.takeWhile mimeChar
      if run.isEmpty then extractMime rest else some run
    else extractMime rest

/-- getFriendlyErrorMessage from src/lib/utils.ts.  The call sites in
App.tsx pass `String(err)`, so the `unknown`-normalisation prelude of the
source reduces to the string branch (`rawMessage = error`), which is the
argument here. -/
def getFriendlyErrorMessage (rawMessage : String) (context : String) : String :=
  let lowerCaseMessage := rawMessage.toLower
  if jsIncludes lowerCaseMessage "quota" || jsIncludes lowerCaseMessage "rate limit" ||
      jsIncludes lowerCaseMessage "429" then
    "We\x27re experiencing high demand right now. Please wait a moment and try again."
  else if jsIncludes lowerCaseMessage "unsupported mime type" then
    let mimeType :=
      match extractMime rawMessage.toList with
      | some m => "\x27" ++ String.mk m ++ "\x27"
      | none => "this file type"
    "Sorry, " ++ mimeType ++
      " is not supported. Please upload a standard image format like PNG, JPEG, or WEBP."
  else if jsIncludes lowerCaseMessage "blocked" || jsIncludes lowerCaseMessage "safety" then
    "Your request was blocked for safety reasons. This can happen with certain images or prompts. Please try a different image."
  else if jsIncludes lowerCaseMessage "model did not return an image" then
    "The AI couldn\x27t create an image for this request. It might be too complex or unusual. Please try a different image or garment."
  else
    "An unexpected error occurred while trying to " ++ context.toLower ++
      ". Please try again. If the problem continues, there might be a temporary issue with the service."

/-- Application state slice driven by the try-on orchestrator in
src/App.tsx (the React useState hooks the four handlers read or write). -/
structure AppState where
  modelImageUrl : Option String
  outfitHistory : List OutfitLayer
  currentOutfitIndex : Nat
  isLoading : Bool
  loadingMessage : String
  error : Option String
  currentPoseIndex : Nat
deriving DecidableEq, Repr

/-- displayImageUrl memo from src/App.tsx lines 431-442: resolve
`enhanced ?? standard` for the current pose on the current layer, fall
back to the `standard` of the first available pose, then to the base model
image.  `outfitHistory[currentOutfitIndex]` out of range gives a falsy
`currentLayer`, returning `modelImageUrl`. -/
def displayImageUrl (s : AppState) : Option String :=
  if s.outfitHistory.isEmpty then s.modelImageUrl
  else
    match s.outfitHistory.get? s.currentOutfitIndex with
    | none => s.modelImageUrl
    | some currentLayer =>
      let poseImage := objGet currentLayer.poseImages (poseKeyAt s.currentPoseIndex)
      let poseKeys := currentLayer.poseImages.map Prod.fst
      let fallbackPose :=
        match poseKeys.head? with
        | none => none
        | some k0 => objGet currentLayer.poseImages k0
      ((poseImage.bind PoseImage.enhanced).or
        ((poseImage.map PoseImage.standard).or
          ((fallbackPose.map PoseImage.standard).or s.modelImageUrl)))

/-- Guard `nextLayer && nextLayer.garment?.id === garmentInfo.id` of the
redo branch in handleGarmentSelect (src/App.tsx lines 517-518). -/
def garmentRedo (nextLayer : Option OutfitLayer) (garmentInfo : WardrobeItem) : Bool :=
  match nextLayer with
  | none => false
  | some l =>
    match l.garment with
    | none => false
    | some g => g.id == garmentInfo.id

/-- handleGarmentSelect from src/App.tsx lines 514-564.  Net effect of the
async body once the remote `generateVirtualTryOnImage` call settles:
on success `error` stays at the `null` written before the call, the
history is truncated to `[0..cursor]` and the new layer appended under
the current pose key, and the cursor advances; on failure only the
classified error is stored.  `isLoading` is raised then lowered in the
`finally`, and `loadingMessage` is set then cleared, so both net to their
idle values.  The Bool reports whether the remote call was issued. -/
def handleGarmentSelect (s : AppState) (garmentInfo : WardrobeItem)
    (remote : Except String String) : AppState × Bool :=
  if !(strTruthy (displayImageUrl s)) || s.isLoading then (s, false)
  else if garmentRedo (s.outfitHistory.get? (s.currentOutfitIndex + 1)) garmentInfo then
    ({ s with currentOutfitIndex := s.currentOutfitIndex + 1, currentPoseIndex := 0 }, false)
  else
    match remote with
    | Except.ok newImageUrl =>
      ({ s with
          error := none
          outfitHistory := s.outfitHistory.take (s.currentOutfitIndex + 1) ++
            [{ garment := some garmentInfo
               poseImages := [(poseKeyAt s.currentPoseIndex,
                 { standard := newImageUrl, enhanced := none })] }]
          currentOutfitIndex := s.currentOutfitIndex + 1
          isLoading := false
          loadingMessage := "" }, true)
    | Except.error e =>
      ({ s with
          error := some (getFriendlyErrorMessage e "Failed to apply garment")
          isLoading := false
          loadingMessage := "" }, true)

/-- handleRemoveLastGarment from src/App.tsx lines 566-574.  Note: the
source has no `isLoading` guard here — the only precondition checked is
`currentOutfitIndex > 0`. -/
def handleRemoveLastGarment (s : AppState) : AppState :=
  if s.currentOutfitIndex > 0 then
    { s with currentOutfitIndex := s.currentOutfitIndex - 1, currentPoseIndex := 0 }
  else s

/-- Positional rendering of `prevHistory.map((layer, index) => index ===
currentOutfitIndex ? patched(layer) : layer)` used by handlePoseSelect
and handleEnhanceImage: apply `f` to the element at `idx` only. -/
def patchLayerAt (history : List OutfitLayer) (idx : Nat) (f : OutfitLayer → OutfitLayer) :
    List OutfitLayer :=
  match history, idx with
  | [], _ => []
  | l :: rest, 0 => f l :: rest
  | l :: rest, Nat.succ n => l :: patchLayerAt rest n f

/-- handlePoseSelect from src/App.tsx lines 576-621.  `none` models the
TypeError thrown at line 582 when `outfitHistory[currentOutfitIndex]` is
undefined (nonempty history, cursor out of range) — it fires before any
state write.  On the remote path the pose cursor is optimistically set to
`newIndex`; a failure restores the captured `prevPoseIndex` and stores
the classified error, a success keeps the new index and overwrites the
pose entry of the current layer with `{standard: newImageUrl}`. -/
def handlePoseSelect (s : AppState) (newIndex : Nat)
    (remote : Except String String) : Option (AppState × Bool) :=
  if s.isLoading || s.outfitHistory.isEmpty || newIndex == s.currentPoseIndex then
    some (s, false)
  else
    match s.outfitHistory.get? s.currentOutfitIndex with
    | none => none
    | some currentLayer =>
      if strTruthy ((objGet currentLayer.poseImages (poseKeyAt newIndex)).map
          PoseImage.standard) then
        some ({ s with currentPoseIndex := newIndex }, false)
      else
        match displayImageUrl s with
        | none => some (s, false)
        | some baseImageForPoseChange =>
          if baseImageForPoseChange == "" then some (s, false)
          else
            match remote with
            | Except.ok newImageUrl =>
              some ({ s with
                  error := none
                  currentPoseIndex := newIndex
                  outfitHistory := patchLayerAt s.outfitHistory s.currentOutfitIndex
                    (fun layer =>
                      { layer with
                          poseImages := objSet layer.poseImages (poseKeyAt newIndex)
                            { standard := newImageUrl, enhanced := none } })
                  isLoading := false
                  loadingMessage := "" }, true)
            | Except.error e =>
              some ({ s with
                  error := some (getFriendlyErrorMessage e "Failed to change pose")
                  isLoading := false
                  loadingMessage := "" }, true)

/-- Synchronous prefix of handlePoseSelect up to the `await` on the
remote path (src/App.tsx lines 590-595): the state observable while the
pose-variation call is in flight.  On every path that does not reach the
remote call this returns the state the handler leaves (unchanged, or the
cache-hit pose switch). -/
def handlePoseSelectPending (s : AppState) (newIndex : Nat) : AppState :=
  if s.isLoading || s.outfitHistory.isEmpty || newIndex == s.currentPoseIndex then s
  else
    match s.outfitHistory.get? s.currentOutfitIndex with
    | none => s
    | some currentLayer =>
      if strTruthy ((objGet currentLayer.poseImages (poseKeyAt newIndex)).map
          PoseImage.standard) then
        { s with currentPoseIndex := newIndex }
      else
        match displayImageUrl s with
        | none => s
        | some baseImageForPoseChange =>
          if baseImageForPoseChange == "" then s
          else
            { s with
                error := none
                isLoading := true
                loadingMessage := "Changing pose..."
                currentPoseIndex := newIndex }

/-- Patch `if (poseToUpdate) { updatedPoseImages[poseInstruction] =
{...poseToUpdate, enhanced: enhancedImageUrl}; }` from handleEnhanceImage
(src/App.tsx lines 642-646): only an existing entry gains the enhanced
field; otherwise the record is returned unchanged. -/
def setEnhancedEntry (m : List (String × PoseImage)) (k : String) (img : String) :
    List (String × PoseImage) :=
  match objGet m k with
  | some poseToUpdate => objSet m k { poseToUpdate with enhanced := some img }
  | none => m

/-- handleEnhanceImage from src/App.tsx lines 623-658.  `none` models the
TypeError at line 628 when `outfitHistory[currentOutfitIndex]` is
undefined (fires before any state write).  On success the current
entry of the current layer for the current pose — when it exists — gains
`enhanced`; an absent entry leaves the record unchanged, silently
dropping the result. -/
def handleEnhanceImage (s : AppState) (remote : Except String String) :
    Option (AppState × Bool) :=
  if !(strTruthy (displayImageUrl s)) || s.isLoading then some (s, false)
  else
    match s.outfitHistory.get? s.currentOutfitIndex with
    | none => none
    | some currentLayer =>
      if strTruthy ((objGet currentLayer.poseImages (poseKeyAt s.currentPoseIndex)).bind
          PoseImage.enhanced) then
        some (s, false)
      else
        match remote with
        | Except.ok enhancedImageUrl =>
          some ({ s with
              error := none
              outfitHistory := patchLayerAt s.outfitHistory s.currentOutfitIndex
                (fun layer =>
                  { layer with
                      poseImages := setEnhancedEntry layer.poseImages
                        (poseKeyAt s.currentPoseIndex) enhancedImageUrl })
              isLoading := false
              loadingMessage := "" }, true)
        | Except.error e =>
          some ({ s with
              error := some (getFriendlyErrorMessage e "Failed to enhance image")
              isLoading := false
              loadingMessage := "" }, true)

/-- Initial values of the App.tsx useState hooks relevant here. -/
def initialState : AppState :=
  { modelImageUrl := none
    outfitHistory := []
    currentOutfitIndex := 0
    isLoading := false
    loadingMessage := ""
    error := none
    currentPoseIndex := 0 }

/-- handleModelFinalized from src/App.tsx lines 457-466: replace the
history with a single base layer (`garment: null`, the uploaded model
image under pose 0) and reset the cursor. -/
def handleModelFinalized (s : AppState) (url : String) : AppState :=
  { s with
      modelImageUrl := some url
      outfitHistory :=
        [{ garment := none
           poseImages := [(poseKeyAt 0, { standard := url, enhanced := none })] }]
      currentOutfitIndex := 0 }

/-- One user-triggered timeline operation of the restricted alphabet in
the cursor-invariant property: a garment selection (with its remote
outcome) or a remove-last click. -/
inductive TimelineOp where
  | applyG (garmentInfo : WardrobeItem) (remote : Except String String)
  | removeLast
deriving Repr

/-- Run one TimelineOp through the corresponding App.tsx handler. -/
def runTimelineOp (s : AppState) (op : TimelineOp) : AppState :=
  match op with
  | TimelineOp.applyG g r => (handleGarmentSelect s g r).1
  | TimelineOp.removeLast => handleRemoveLastGarment s

/-- Fold a sequence of timeline operations from a starting state. -/
def runTimelineOps (s : AppState) (ops : List TimelineOp) : AppState :=
  ops.foldl runTimelineOp s

/-- One operation of the full orchestrator alphabet (garment selection,
remove-last, pose selection, enhancement), each remote-backed operation
carrying its oracle outcome. -/
inductive OrchestratorOp where
  | applyG (garmentInfo : WardrobeItem) (remote : Except String String)
  | removeLast
  | poseSel (newIndex : Nat) (remote : Except String String)
  | enhance (remote : Except String String)
deriving Repr

/-- Run one OrchestratorOp.  The `Option.getD` renders the TypeError
paths of handlePoseSelect / handleEnhanceImage, which throw before any
state write and therefore leave the state unchanged. -/
def runOrchestratorOp (s : AppState) (op : OrchestratorOp) : AppState :=
  match op with
  | OrchestratorOp.applyG g r => (handleGarmentSelect s g r).1
  | OrchestratorOp.removeLast => handleRemoveLastGarment s
  | OrchestratorOp.poseSel n r => ((handlePoseSelect s n r).getD (s, false)).1
  | OrchestratorOp.enhance r => ((handleEnhanceImage s r).getD (s, false)).1

/-- Enhanced image stored at layer `j`, pose key `k`. -/
def enhancedAt (s : AppState) (j : Nat) (k : String) : Option String :=
  (s.outfitHistory.get? j).bind fun layer =>
    (objGet layer.poseImages k).bind PoseImage.enhanced

section Lemmas

/-- Updating one key leaves lookups of any other key unchanged. -/
theorem objGet_objSet_ne (m : List (String × PoseImage)) (k k2 : String) (v : PoseImage)
    (h : k ≠ k2) : objGet (objSet m k2 v) k = objGet m k := by
  induction m with
  | nil =>
    simp only [objSet, objGet]
    rw [if_neg]
    exact fun hk => h (hk.symm)
  | cons hd tl ih =>
    obtain ⟨k3, v3⟩ := hd
    simp only [objSet]
    by_cases h3 : k3 = k2
    · subst h3
      simp only [if_pos rfl, objGet]
      rw [if_neg (fun hk => h (hk.symm)), if_neg]
      intro hk
      exact h (by rw [hk])
    · rw [if_neg h3]
      simp only [objGet]
      by_cases h4 : k3 = k
      · rw [if_pos h4, if_pos h4]
      · rw [if_neg h4, if_neg h4, ih]

/-- A patch at one index leaves every other index unchanged. -/
theorem patchLayerAt_get?_of_ne (m : List OutfitLayer) (idx j : Nat)
    (f : OutfitLayer → OutfitLayer) (h : j ≠ idx) :
    (patchLayerAt m idx f).get? j = m.get? j := by
  induction m generalizing idx j with
  | nil => simp [patchLayerAt]
  | cons hd tl ih =>
    cases idx with
    | zero =>
      cases j with
      | zero => exact absurd rfl h
      | succ j2 => simp [patchLayerAt]
    | succ n =>
      cases j with
      | zero => simp [patchLayerAt]
      | succ j2 =>
        simp only [patchLayerAt, List.get?]
        exact ih n j2 (fun hc => h (by rw [hc]))

/-- A patch at the index itself applies `f` to the stored element. -/
theorem patchLayerAt_get?_self (m : List OutfitLayer) (idx : Nat)
    (f : OutfitLayer → OutfitLayer) :
    (patchLayerAt m idx f).get? idx = (m.get? idx).map f := by
  induction m generalizing idx with
  | nil => simp [patchLayerAt]
  | cons hd tl ih =>
    cases idx with
    | zero => simp [patchLayerAt]
    | succ n => simpa [patchLayerAt] using ih n

/-- A patch whose function fixes the stored element is the identity. -/
theorem patchLayerAt_eq_self (m : List OutfitLayer) (idx : Nat)
    (f : OutfitLayer → OutfitLayer) (l : OutfitLayer)
    (hget : m.get? idx = some l) (hfix : f l = l) :
    patchLayerAt m idx f = m := by
  induction m generalizing idx with
  | nil => simp [patchLayerAt]
  | cons hd tl ih =>
    cases idx with
    | zero =>
      simp only [List.get?] at hget
      obtain rfl : hd = l := by injection hget
      simp [patchLayerAt, hfix]
    | succ n =>
      simp only [List.get?] at hget
      simp [patchLayerAt, ih n hget]

/-- A successful lookup bounds the index. -/
theorem get?_lt_length {α : Type} (l : List α) (n : Nat) (a : α)
    (h : l.get? n = some a) : n < l.length := by
  by_contra hc
  push_neg at hc
  rw [List.get?_eq_none.mpr hc] at h
  exact Option.noConfusion h

/-- Truncating strictly above an index and appending does not disturb
that index. -/
theorem get?_take_append {α : Type} (l l2 : List α) (n j : Nat) (a : α)
    (hj : j < n) (h : l.get? j = some a) :
    (l.take n ++ l2).get? j = some a := by
  have hlen : j < l.length := get?_lt_length l j a h
  have htk : j < (l.take n).length := by
    rw [List.length_take]
    exact lt_min hj hlen
  rw [List.get?_append htk, List.get?_take hj, h]

end Lemmas

section Fixtures

/-- Base model layer fixture: the uploaded model image under pose 0. -/
def demoBaseLayer : OutfitLayer :=
  { garment := none
    poseImages := [("Full frontal view, hands on hips", { standard := "model.png", enhanced := none })] }

/-- Garment fixture A. -/
def demoGarmentA : WardrobeItem := { id := "garment-a", name := "Linen Shirt" }

/-- Garment fixture B. -/
def demoGarmentB : WardrobeItem := { id := "garment-b", name := "Denim Jacket" }

/-- Garment fixture C, distinct id from A and B. -/
def demoGarmentC : WardrobeItem := { id := "garment-c", name := "Wool Coat" }

/-- Layer fixture for garment A. -/
def demoLayerA : OutfitLayer :=
  { garment := some demoGarmentA
    poseImages := [("Full frontal view, hands on hips", { standard := "a.png", enhanced := none })] }

/-- Layer fixture for garment B. -/
def demoLayerB : OutfitLayer :=
  { garment := some demoGarmentB
    poseImages := [("Full frontal view, hands on hips", { standard := "b.png", enhanced := none })] }

/-- A state mid-generation: the orchestrator is busy and the cursor sits
on layer 1 of a redo-capable two-layer history. -/
def busyState : AppState :=
  { modelImageUrl := some "model.png"
    outfitHistory := [demoBaseLayer, demoLayerA]
    currentOutfitIndex := 1
    isLoading := true
    loadingMessage := "Adding Denim Jacket..."
    error := none
    currentPoseIndex := 0 }

/-- Idle state over the history [base, A, B] with the cursor at layer A. -/
def midHistoryState : AppState :=
  { modelImageUrl := some "model.png"
    outfitHistory := [demoBaseLayer, demoLayerA, demoLayerB]
    currentOutfitIndex := 1
    isLoading := false
    loadingMessage := ""
    error := none
    currentPoseIndex := 0 }

/-- Layer holding only the side-profile pose image. -/
def demoSideLayer : OutfitLayer :=
  { garment := some demoGarmentA
    poseImages := [("Side profile view", { standard := "side.png", enhanced := none })] }

/-- Idle state whose current layer has only the side-profile image while
the requested pose is pose 0 (frontal). -/
def sideOnlyState : AppState :=
  { modelImageUrl := some "model.png"
    outfitHistory := [demoBaseLayer, demoSideLayer]
    currentOutfitIndex := 1
    isLoading := false
    loadingMessage := ""
    error := none
    currentPoseIndex := 0 }

/-- Layer with an enhanced frontal image. -/
def demoEnhancedLayer : OutfitLayer :=
  { garment := some demoGarmentA
    poseImages :=
      [("Full frontal view, hands on hips",
        { standard := "a.png", enhanced := some "a-enhanced.png" })] }

/-- Idle state whose current layer already carries an enhanced image. -/
def enhancedState : AppState :=
  { modelImageUrl := some "model.png"
    outfitHistory := [demoBaseLayer, demoEnhancedLayer]
    currentOutfitIndex := 1
    isLoading := false
    loadingMessage := ""
    error := none
    currentPoseIndex := 0 }

/-- Idle redo-capable state that still displays an error from an earlier
failed action. -/
def staleErrorState : AppState :=
  { modelImageUrl := some "model.png"
    outfitHistory := [demoBaseLayer, demoLayerA]
    currentOutfitIndex := 0
    isLoading := false
    loadingMessage := ""
    error := some "previous failure"
    currentPoseIndex := 0 }

end Fixtures

/-- C1 counterexample: in a concrete busy state (`isLoading = true`,
cursor at 1) the removeLastGarment entry point is not a no-op — it moves
the cursor — because src/App.tsx lines 566-574 check only
`currentOutfitIndex > 0` and never `isLoading`. -/
theorem busy_removeLast_counterexample_C1 :
    busyState.isLoading = true ∧
    (handleRemoveLastGarment busyState).currentOutfitIndex ≠ busyState.currentOutfitIndex := by
  decide

/-- C1 (amended): while the orchestrator is busy (`isLoading = true`),
applyGarment (handleGarmentSelect), selectPose (handlePoseSelect) and
enhanceCurrentImage (handleEnhanceImage) are no-ops: state unchanged and
no remote call issued.  removeLastGarment is not guarded by the busy
flag: it never issues a remote call and leaves the history untouched,
but with `cursor > 0` it still steps the cursor back and resets the pose
index even while busy. -/
theorem busy_guard_C1 (s : AppState) (g : WardrobeItem) (n : Nat)
    (r1 r2 r3 : Except String String) (hbusy : s.isLoading = true) :
    handleGarmentSelect s g r1 = (s, false) ∧
    handlePoseSelect s n r2 = some (s, false) ∧
    handleEnhanceImage s r3 = some (s, false) ∧
    (handleRemoveLastGarment s).outfitHistory = s.outfitHistory ∧
    (0 < s.currentOutfitIndex →
      (handleRemoveLastGarment s).currentOutfitIndex = s.currentOutfitIndex - 1 ∧
      (handleRemoveLastGarment s).currentPoseIndex = 0) := by
  refine ⟨?_, ?_, ?_, ?_, ?_⟩
  · simp [handleGarmentSelect, hbusy]
  · simp [handlePoseSelect, hbusy]
  · simp [handleEnhanceImage, hbusy]
  · unfold handleRemoveLastGarment
    split <;> rfl
  · intro hpos
    unfold handleRemoveLastGarment
    rw [if_pos hpos]
    exact ⟨rfl, rfl⟩

/-- C1 witness: the amended busy-guard theorem applied to the concrete
busy fixture. -/
theorem busy_guard_C1_witness :
    handleGarmentSelect busyState demoGarmentB (Except.ok "x.png") = (busyState, false) ∧
    handlePoseSelect busyState 2 (Except.ok "x.png") = some (busyState, false) ∧
    handleEnhanceImage busyState (Except.ok "x.png") = some (busyState, false) ∧
    (handleRemoveLastGarment busyState).outfitHistory = busyState.outfitHistory ∧
    (0 < busyState.currentOutfitIndex →
      (handleRemoveLastGarment busyState).currentOutfitIndex = busyState.currentOutfitIndex - 1 ∧
      (handleRemoveLastGarment busyState).currentPoseIndex = 0) :=
  busy_guard_C1 busyState demoGarmentB 2 (Except.ok "x.png") (Except.ok "x.png")
    (Except.ok "x.png") (by decide)

/-- C4: whenever the layer immediately after the cursor exists and holds
the same garment id as the argument (and the orchestrator is idle with a
truthy display image, the preconditions of the entry point), applyGarment
synchronously advances the cursor by one, resets the pose cursor to 0,
leaves the history untouched, and issues no remote call. -/
theorem garment_redo_C4 (s : AppState) (nextLayer : OutfitLayer)
    (g garmentInfo : WardrobeItem) (r : Except String String)
    (hbusy : s.isLoading = false)
    (hdisp : strTruthy (displayImageUrl s) = true)
    (hnext : s.outfitHistory.get? (s.currentOutfitIndex + 1) = some nextLayer)
    (hgar : nextLayer.garment = some g)
    (hid : g.id = garmentInfo.id) :
    handleGarmentSelect s garmentInfo r =
      ({ s with currentOutfitIndex := s.currentOutfitIndex + 1, currentPoseIndex := 0 },
        false) := by
  unfold handleGarmentSelect
  rw [hdisp, hbusy, hnext]
  simp [garmentRedo, hgar, hid]

/-- C4 witness: redo from the concrete [base, A, B] state, re-selecting
garment B. -/
theorem garment_redo_C4_witness :
    handleGarmentSelect midHistoryState demoGarmentB (Except.error "network down") =
      ({ midHistoryState with
          currentOutfitIndex := midHistoryState.currentOutfitIndex + 1,
          currentPoseIndex := 0 }, false) :=
  garment_redo_C4 midHistoryState demoLayerB demoGarmentB demoGarmentB
    (Except.error "network down") (by decide) (by decide) (by decide) (by decide) (by decide)

/-- C3: from history [base, A, B] with the cursor at index 1 (idle,
truthy display image), applying a garment C whose id differs from the id
of the garment of B with a successful remote compose producing image `i`
truncates the discarded redo branch and appends the new layer: the
history becomes [base, A, layer(C, i)] (the new layer keyed by the
current pose), the cursor becomes 2, and the remote call was issued. -/
theorem truncation_C3 (s : AppState) (base A B : OutfitLayer) (gB C : WardrobeItem)
    (i : String)
    (hhist : s.outfitHistory = [base, A, B])
    (hcur : s.currentOutfitIndex = 1)
    (hbusy : s.isLoading = false)
    (hdisp : strTruthy (displayImageUrl s) = true)
    (hBg : B.garment = some gB)
    (hid : gB.id ≠ C.id) :
    handleGarmentSelect s C (Except.ok i) =
      ({ s with
          error := none
          outfitHistory := [base, A,
            { garment := some C
              poseImages := [(poseKeyAt s.currentPoseIndex,
                { standard := i, enhanced := none })] }]
          currentOutfitIndex := 2
          isLoading := false
          loadingMessage := "" }, true) := by
  unfold handleGarmentSelect
  rw [hdisp, hbusy]
  rw [hcur, hhist]
  simp [garmentRedo, hBg, hid, List.take]

/-- C3 witness: the truncation theorem applied to the concrete
[base, A, B] state with garment C. -/
theorem truncation_C3_witness :
    handleGarmentSelect midHistoryState demoGarmentC (Except.ok "c.png") =
      ({ midHistoryState with
          error := none
          outfitHistory := [demoBaseLayer, demoLayerA,
            { garment := some demoGarmentC
              poseImages := [(poseKeyAt midHistoryState.currentPoseIndex,
                { standard := "c.png", enhanced := none })] }]
          currentOutfitIndex := 2
          isLoading := false
          loadingMessage := "" }, true) :=
  truncation_C3 midHistoryState demoBaseLayer demoLayerA demoLayerB demoGarmentB
    demoGarmentC "c.png" (by decide) (by decide) (by decide) (by decide) (by decide)
    (by decide)

/-- C2: with a non-empty timeline, the orchestrator idle, and the current
layer lacking an entry for target pose `p` (`p` different from the
current pose index, display image available), selectPose(p) sets the pose
cursor to `p` in the synchronous prefix before the remote call resolves
(`handlePoseSelectPending`), and if the remote call fails the settled
state has the pose cursor restored to its pre-call value, a non-null
`lastError`, and the outfit history unchanged. -/
theorem pose_rollback_C2 (s : AppState) (p : Nat) (layer : OutfitLayer) (base e : String)
    (hbusy : s.isLoading = false)
    (hne : s.outfitHistory ≠ [])
    (hp : p ≠ s.currentPoseIndex)
    (hlayer : s.outfitHistory.get? s.currentOutfitIndex = some layer)
    (hmiss : objGet layer.poseImages (poseKeyAt p) = none)
    (hdisp : displayImageUrl s = some base)
    (hbase : base ≠ "") :
    (handlePoseSelectPending s p).currentPoseIndex = p ∧
    (handlePoseSelectPending s p).isLoading = true ∧
    handlePoseSelect s p (Except.error e) =
      some ({ s with
          error := some (getFriendlyErrorMessage e "Failed to change pose")
          isLoading := false
          loadingMessage := "" }, true) := by
  have hie : s.outfitHistory.isEmpty = false := by simp [List.isEmpty_iff, hne]
  have hbeq : (p == s.currentPoseIndex) = false := by simp [hp]
  have hbase2 : (base == "") = false := by simp [hbase]
  have hlayer2 : s.outfitHistory[s.currentOutfitIndex]? = some layer := by
    rw [← List.get?_eq_getElem?]
    exact hlayer
  refine ⟨?_, ?_, ?_⟩ <;>
    simp [handlePoseSelectPending, handlePoseSelect, hbusy, hie, hbeq, hlayer, hlayer2,
      hmiss, hdisp, hbase2, strTruthy]

/-- C2 witness: from the side-profile-only state at pose 0, selecting
pose 1 (absent) optimistically moves the pose cursor to 1 and a failing
remote call rolls it back, stores an error, and keeps the history. -/
theorem pose_rollback_C2_witness :
    (handlePoseSelectPending sideOnlyState 1).currentPoseIndex = 1 ∧
    (handlePoseSelectPending sideOnlyState 1).isLoading = true ∧
    handlePoseSelect sideOnlyState 1 (Except.error "boom") =
      some ({ sideOnlyState with
          error := some (getFriendlyErrorMessage "boom" "Failed to change pose")
          isLoading := false
          loadingMessage := "" }, true) :=
  pose_rollback_C2 sideOnlyState 1 demoSideLayer "side.png" "boom" (by decide)
    (by decide) (by decide) (by decide) (by decide) (by decide) (by decide)

/-- C6: the displayed image resolves through the triple fallback chain
exactly.  With a current layer in range: an enhanced entry for the
current pose wins; otherwise its standard entry; otherwise, when the
requested pose has no entry but the layer has some pose image, the
standard of the first stored (necessarily different) pose is shown — not
the base model image; only a layer with no pose images at all falls back
to the base model image. -/
theorem display_fallback_C6 (s : AppState) (layer : OutfitLayer)
    (hlayer : s.outfitHistory.get? s.currentOutfitIndex = some layer) :
    (∀ pi e2, objGet layer.poseImages (poseKeyAt s.currentPoseIndex) = some pi →
        pi.enhanced = some e2 → displayImageUrl s = some e2) ∧
    (∀ pi, objGet layer.poseImages (poseKeyAt s.currentPoseIndex) = some pi →
        pi.enhanced = none → displayImageUrl s = some pi.standard) ∧
    (∀ k0 pi0 rest, objGet layer.poseImages (poseKeyAt s.currentPoseIndex) = none →
        layer.poseImages = (k0, pi0) :: rest →
        displayImageUrl s = some pi0.standard ∧ k0 ≠ poseKeyAt s.currentPoseIndex) ∧
    (layer.poseImages = [] → displayImageUrl s = s.modelImageUrl) := by
  have hne : s.outfitHistory ≠ [] := by
    intro h
    rw [h] at hlayer
    exact Option.noConfusion hlayer
  have hie : s.outfitHistory.isEmpty = false := by simp [List.isEmpty_iff, hne]
  have hlayer2 : s.outfitHistory[s.currentOutfitIndex]? = some layer := by
    rw [← List.get?_eq_getElem?]
    exact hlayer
  refine ⟨?_, ?_, ?_, ?_⟩
  · intro pi e2 hget henh
    simp [displayImageUrl, hie, hlayer2, hget, henh, Option.or]
  · intro pi hget henh
    simp [displayImageUrl, hie, hlayer2, hget, henh, Option.or]
  · intro k0 pi0 rest hget hshape
    have hk0 : k0 ≠ poseKeyAt s.currentPoseIndex := by
      intro hk
      rw [hshape] at hget
      simp [objGet, hk] at hget
    have hrest : objGet rest (poseKeyAt s.currentPoseIndex) = none := by
      rw [hshape] at hget
      simpa [objGet, hk0] using hget
    refine ⟨?_, hk0⟩
    simp [displayImageUrl, hie, hlayer2, hshape, objGet, hk0, hrest, Option.or]
  · intro hempty
    simp [displayImageUrl, hie, hlayer2, hempty, objGet, Option.or]

/-- C6 witness: a layer holding only the side-profile image, viewed at
the frontal pose, displays the side-profile standard image (not the base
model image), and the stored pose key is indeed a different pose. -/
theorem display_fallback_C6_witness :
    displayImageUrl sideOnlyState = some "side.png" ∧
    "Side profile view" ≠ poseKeyAt sideOnlyState.currentPoseIndex :=
  (display_fallback_C6 sideOnlyState demoSideLayer (by decide)).2.2.1
    "Side profile view" { standard := "side.png", enhanced := none } [] (by decide)
    (by decide)

/-- C10: when the current layer has no entry at all for the current pose
(the display image being served by fallback), enhanceCurrentImage still
issues the remote enhance call, and a successful result is silently
discarded: the outfit history, cursor and pose index are unchanged,
because the patch in src/App.tsx lines 642-646 only applies when a
standard entry for the current pose already exists. -/
theorem enhance_dropped_C10 (s : AppState) (layer : OutfitLayer) (img : String)
    (hbusy : s.isLoading = false)
    (hdisp : strTruthy (displayImageUrl s) = true)
    (hlayer : s.outfitHistory.get? s.currentOutfitIndex = some layer)
    (hmiss : objGet layer.poseImages (poseKeyAt s.currentPoseIndex) = none) :
    ∃ s2, handleEnhanceImage s (Except.ok img) = some (s2, true) ∧
      s2.outfitHistory = s.outfitHistory ∧
      s2.currentOutfitIndex = s.currentOutfitIndex ∧
      s2.currentPoseIndex = s.currentPoseIndex := by
  refine ⟨{ s with error := none, isLoading := false, loadingMessage := "" },
    ?_, rfl, rfl, rfl⟩
  have hfix :
      (fun l : OutfitLayer =>
        { l with
            poseImages :=
              setEnhancedEntry l.poseImages (poseKeyAt s.currentPoseIndex) img })
          layer = layer := by
    simp [setEnhancedEntry, hmiss]
  have hpatch := patchLayerAt_eq_self s.outfitHistory s.currentOutfitIndex
    (fun l : OutfitLayer =>
      { l with
          poseImages :=
            setEnhancedEntry l.poseImages (poseKeyAt s.currentPoseIndex) img })
    layer hlayer hfix
  have hlayer2 : s.outfitHistory[s.currentOutfitIndex]? = some layer := by
    rw [← List.get?_eq_getElem?]
    exact hlayer
  have hdisp2 := hdisp
  unfold strTruthy at hdisp2
  simp [handleEnhanceImage, hbusy, hdisp, hdisp2, hlayer, hlayer2, hmiss, hpatch,
    strTruthy]

/-- C10 witness: enhancing the side-profile-only state at the frontal
pose issues the call and leaves history, cursor and pose unchanged. -/
theorem enhance_dropped_C10_witness :
    ∃ s2, handleEnhanceImage sideOnlyState (Except.ok "enh.png") = some (s2, true) ∧
      s2.outfitHistory = sideOnlyState.outfitHistory ∧
      s2.currentOutfitIndex = sideOnlyState.currentOutfitIndex ∧
      s2.currentPoseIndex = sideOnlyState.currentPoseIndex :=
  enhance_dropped_C10 sideOnlyState demoSideLayer "enh.png" (by decide) (by decide)
    (by decide) (by decide)

/-- The cursor invariant of the outfit timeline: the cursor indexes into
the history and the base layer (index 0) has a null garment. -/
def timelineInv (s : AppState) : Prop :=
  s.currentOutfitIndex < s.outfitHistory.length ∧
  (s.outfitHistory.get? 0).map OutfitLayer.garment = some none

/-- A positive redo test implies the next layer exists. -/
theorem garmentRedo_isSome (o : Option OutfitLayer) (g : WardrobeItem)
    (h : garmentRedo o g = true) : o.isSome := by
  cases o <;> simp [garmentRedo] at h ⊢

/-- handleGarmentSelect preserves the cursor invariant. -/
theorem timelineInv_handleGarmentSelect (s : AppState) (g : WardrobeItem)
    (r : Except String String) (h : timelineInv s) :
    timelineInv (handleGarmentSelect s g r).1 := by
  obtain ⟨hlt, hhead⟩ := h
  obtain ⟨l0, hl0, hg0⟩ : ∃ l0, s.outfitHistory.get? 0 = some l0 ∧ l0.garment = none := by
    cases hh : s.outfitHistory.get? 0 with
    | none => rw [hh] at hhead; exact Option.noConfusion hhead
    | some l0 =>
      rw [hh] at hhead
      refine ⟨l0, rfl, ?_⟩
      simpa using hhead
  cases r with
  | ok newUrl =>
    unfold handleGarmentSelect
    split
    · exact ⟨hlt, hhead⟩
    · split
      · rename_i hredo
        obtain ⟨l, hl⟩ := Option.isSome_iff_exists.mp
          (garmentRedo_isSome (s.outfitHistory.get? (s.currentOutfitIndex + 1)) g hredo)
        exact ⟨get?_lt_length _ _ _ hl, hhead⟩
      · constructor
        · simp only [List.length_append, List.length_take, List.length_singleton]
          omega
        · have := get?_take_append s.outfitHistory
            [({ garment := some g
                poseImages := [(poseKeyAt s.currentPoseIndex,
                  { standard := newUrl, enhanced := none })] } : OutfitLayer)]
            (s.currentOutfitIndex + 1) 0 l0 (Nat.succ_pos _) hl0
          simp only [this, Option.map_some]
          simp [hg0]
  | error e =>
    unfold handleGarmentSelect
    split
    · exact ⟨hlt, hhead⟩
    · split
      · rename_i hredo
        obtain ⟨l, hl⟩ := Option.isSome_iff_exists.mp
          (garmentRedo_isSome (s.outfitHistory.get? (s.currentOutfitIndex + 1)) g hredo)
        exact ⟨get?_lt_length _ _ _ hl, hhead⟩
      · exact ⟨hlt, hhead⟩

/-- handleRemoveLastGarment preserves the cursor invariant. -/
theorem timelineInv_handleRemoveLastGarment (s : AppState) (h : timelineInv s) :
    timelineInv (handleRemoveLastGarment s) := by
  obtain ⟨hlt, hhead⟩ := h
  unfold handleRemoveLastGarment
  split
  · refine ⟨?_, hhead⟩
    show s.currentOutfitIndex - 1 < s.outfitHistory.length
    omega
  · exact ⟨hlt, hhead⟩

/-- Every single timeline operation preserves the cursor invariant. -/
theorem timelineInv_runTimelineOp (s : AppState) (op : TimelineOp)
    (h : timelineInv s) : timelineInv (runTimelineOp s op) := by
  cases op with
  | applyG g r => exact timelineInv_handleGarmentSelect s g r h
  | removeLast => exact timelineInv_handleRemoveLastGarment s h

/-- Whole sequences of timeline operations preserve the cursor invariant. -/
theorem timelineInv_runTimelineOps (s : AppState) (ops : List TimelineOp)
    (h : timelineInv s) : timelineInv (runTimelineOps s ops) := by
  induction ops generalizing s with
  | nil => exact h
  | cons op rest ih => exact ih (runTimelineOp s op) (timelineInv_runTimelineOp s op h)

/-- C5: starting from a freshly reset timeline (handleModelFinalized on
the initial state), after every sequence of applyGarment /
removeLastGarment operations the history is non-empty with
`0 ≤ cursor < history.length` (the lower bound is inherent to Nat) and
the base layer at index 0 has a null garment. -/
theorem cursor_invariant_C5 (url : String) (ops : List TimelineOp) :
    (runTimelineOps (handleModelFinalized initialState url) ops).currentOutfitIndex <
      (runTimelineOps (handleModelFinalized initialState url) ops).outfitHistory.length ∧
    ((runTimelineOps (handleModelFinalized initialState url) ops).outfitHistory.get? 0).map
      OutfitLayer.garment = some none :=
  timelineInv_runTimelineOps (handleModelFinalized initialState url) ops
    (by simp [timelineInv, handleModelFinalized, initialState, List.get?])

/-- removeLastGarment never touches the history list itself. -/
theorem handleRemoveLastGarment_history (s : AppState) :
    (handleRemoveLastGarment s).outfitHistory = s.outfitHistory := by
  unfold handleRemoveLastGarment
  split <;> rfl

/-- C7: an enhanced image stored at layer `j`, pose key `k` (with the
truthy standard/enhanced strings every remote result yields) survives
every orchestrator operation unless the operation is an applyGarment
whose truncation discards layers strictly after the cursor (`cursor < j`)
— the only wholesale layer replacement.  In particular a pose selection,
successful or not, never removes an existing enhanced entry. -/
theorem enhanced_monotonic_C7 (s : AppState) (op : OrchestratorOp) (j : Nat) (k : String)
    (layer : OutfitLayer) (pi : PoseImage) (e : String)
    (hl : s.outfitHistory.get? j = some layer)
    (hpi : objGet layer.poseImages k = some pi)
    (henh : pi.enhanced = some e)
    (he : e ≠ "")
    (hstd : pi.standard ≠ "") :
    (∃ layer2 pi2, (runOrchestratorOp s op).outfitHistory.get? j = some layer2 ∧
        objGet layer2.poseImages k = some pi2 ∧ pi2.enhanced = some e) ∨
    ((∃ g r, op = OrchestratorOp.applyG g r) ∧ s.currentOutfitIndex < j) := by
  cases op with
  | removeLast =>
    left
    refine ⟨layer, pi, ?_, hpi, henh⟩
    show (handleRemoveLastGarment s).outfitHistory.get? j = some layer
    rw [handleRemoveLastGarment_history, hl]
  | applyG g r =>
    by_cases hj : s.currentOutfitIndex < j
    · exact Or.inr ⟨⟨g, r, rfl⟩, hj⟩
    · left
      push_neg at hj
      show (∃ layer2 pi2, (handleGarmentSelect s g r).1.outfitHistory.get? j = some layer2 ∧
        objGet layer2.poseImages k = some pi2 ∧ pi2.enhanced = some e)
      unfold handleGarmentSelect
      split
      · exact ⟨layer, pi, hl, hpi, henh⟩
      · split
        · exact ⟨layer, pi, hl, hpi, henh⟩
        · cases r with
          | ok newUrl =>
            refine ⟨layer, pi, ?_, hpi, henh⟩
            exact get?_take_append _ _ _ j layer (by omega) hl
          | error e2 => exact ⟨layer, pi, hl, hpi, henh⟩
  | poseSel n r =>
    left
    show (∃ layer2 pi2,
      (((handlePoseSelect s n r).getD (s, false)).1).outfitHistory.get? j = some layer2 ∧
      objGet layer2.poseImages k = some pi2 ∧ pi2.enhanced = some e)
    unfold handlePoseSelect
    split
    · exact ⟨layer, pi, hl, hpi, henh⟩
    · cases hcur : s.outfitHistory.get? s.currentOutfitIndex with
      | none => exact ⟨layer, pi, hl, hpi, henh⟩
      | some currentLayer =>
        simp only [hcur]
        split
        · exact ⟨layer, pi, hl, hpi, henh⟩
        · rename_i hnohit
          split
          · exact ⟨layer, pi, hl, hpi, henh⟩
          · split
            · exact ⟨layer, pi, hl, hpi, henh⟩
            · cases r with
              | error e2 => exact ⟨layer, pi, hl, hpi, henh⟩
              | ok newUrl =>
                by_cases hjc : j = s.currentOutfitIndex
                · subst hjc
                  rw [hcur] at hl
                  obtain rfl : currentLayer = layer := by injection hl
                  have hkne : k ≠ poseKeyAt n := by
                    intro hk
                    rw [← hk, hpi] at hnohit
                    simp [strTruthy, hstd] at hnohit
                  refine ⟨{ currentLayer with
                      poseImages := objSet currentLayer.poseImages (poseKeyAt n)
                        { standard := newUrl, enhanced := none } }, pi, ?_, ?_, henh⟩
                  · show (patchLayerAt s.outfitHistory s.currentOutfitIndex
                      (fun layer => { layer with
                        poseImages := objSet layer.poseImages (poseKeyAt n)
                          { standard := newUrl, enhanced := none } })).get?
                      s.currentOutfitIndex = _
                    rw [patchLayerAt_get?_self, hcur]
                    rfl
                  · show objGet (objSet currentLayer.poseImages (poseKeyAt n)
                      { standard := newUrl, enhanced := none }) k = some pi
                    rw [objGet_objSet_ne _ _ _ _ hkne]
                    exact hpi
                · refine ⟨layer, pi, ?_, hpi, henh⟩
                  show (patchLayerAt s.outfitHistory s.currentOutfitIndex _).get? j = _
                  rw [patchLayerAt_get?_of_ne _ _ _ _ hjc]
                  exact hl
  | enhance r =>
    left
    show (∃ layer2 pi2,
      (((handleEnhanceImage s r).getD (s, false)).1).outfitHistory.get? j = some layer2 ∧
      objGet layer2.poseImages k = some pi2 ∧ pi2.enhanced = some e)
    unfold handleEnhanceImage
    split
    · exact ⟨layer, pi, hl, hpi, henh⟩
    · cases hcur : s.outfitHistory.get? s.currentOutfitIndex with
      | none => exact ⟨layer, pi, hl, hpi, henh⟩
      | some currentLayer =>
        simp only [hcur]
        split
        · exact ⟨layer, pi, hl, hpi, henh⟩
        · rename_i hnoenh
          cases r with
          | error e2 => exact ⟨layer, pi, hl, hpi, henh⟩
          | ok newUrl =>
            by_cases hjc : j = s.currentOutfitIndex
            · subst hjc
              rw [hcur] at hl
              obtain rfl : currentLayer = layer := by injection hl
              have hkne : k ≠ poseKeyAt s.currentPoseIndex := by
                intro hk
                rw [← hk, hpi] at hnoenh
                simp [strTruthy, henh, he] at hnoenh
              refine ⟨{ currentLayer with
                  poseImages := setEnhancedEntry currentLayer.poseImages
                    (poseKeyAt s.currentPoseIndex) newUrl }, pi, ?_, ?_, henh⟩
              · show (patchLayerAt s.outfitHistory s.currentOutfitIndex
                  (fun layer => { layer with
                    poseImages := setEnhancedEntry layer.poseImages
                      (poseKeyAt s.currentPoseIndex) newUrl })).get?
                  s.currentOutfitIndex = _
                rw [patchLayerAt_get?_self, hcur]
                rfl
              · show objGet (setEnhancedEntry currentLayer.poseImages
                  (poseKeyAt s.currentPoseIndex) newUrl) k = some pi
                unfold setEnhancedEntry
                cases hoget : objGet currentLayer.poseImages (poseKeyAt s.currentPoseIndex) with
                | none =>
                  simp only [hoget]
                  exact hpi
                | some p2 =>
                  simp only [hoget]
                  rw [objGet_objSet_ne _ _ _ _ hkne]
                  exact hpi
            · refine ⟨layer, pi, ?_, hpi, henh⟩
              show (patchLayerAt s.outfitHistory s.currentOutfitIndex _).get? j = _
              rw [patchLayerAt_get?_of_ne _ _ _ _ hjc]
              exact hl

/-- C7 witness: the monotonicity theorem applied to a concrete state
holding an enhanced frontal image, under a removeLastGarment step. -/
theorem enhanced_monotonic_C7_witness :
    (∃ layer2 pi2,
      (runOrchestratorOp enhancedState OrchestratorOp.removeLast).outfitHistory.get? 1 =
        some layer2 ∧
      objGet layer2.poseImages "Full frontal view, hands on hips" = some pi2 ∧
      pi2.enhanced = some "a-enhanced.png") ∨
    ((∃ g r, OrchestratorOp.removeLast = OrchestratorOp.applyG g r) ∧
      enhancedState.currentOutfitIndex < 1) :=
  enhanced_monotonic_C7 enhancedState OrchestratorOp.removeLast 1
    "Full frontal view, hands on hips" demoEnhancedLayer
    { standard := "a.png", enhanced := some "a-enhanced.png" } "a-enhanced.png"
    (by decide) (by decide) (by decide) (by decide) (by decide)

/-- Error taxonomy of specification section 7. -/
inductive ErrorKind where
  | rateLimited
  | unsupportedInput (mime : Option String)
  | safetyRejected
  | modelRefused
  | unknown
deriving DecidableEq, Repr

/-- Spec-side classifier, written from the wording of the claim: classify
an error message by case-insensitive substring matching in this
precedence order — quota / rate limit / 429 first, then unsupported mime
type (carrying the extracted offending MIME type when available), then
blocked / safety, then model did not return an image, and unknown
otherwise. -/
def classifyError (rawMessage : String) : ErrorKind :=
  let lower := rawMessage.toLower
  if jsIncludes lower "quota" || jsIncludes lower "rate limit" ||
      jsIncludes lower "429" then
    ErrorKind.rateLimited
  else if jsIncludes lower "unsupported mime type" then
    ErrorKind.unsupportedInput ((extractMime rawMessage.toList).map (fun cs => String.mk cs))
  else if jsIncludes lower "blocked" || jsIncludes lower "safety" then
    ErrorKind.safetyRejected
  else if jsIncludes lower "model did not return an image" then
    ErrorKind.modelRefused
  else
    ErrorKind.unknown

/-- User-facing message each spec error kind produces: wait-and-retry for
rate limits, format guidance naming the offending MIME type when
extracted, safety guidance, retry-with-different-input for a model
refusal, and a generic message mentioning the context otherwise. -/
def friendlyMessageFor (kind : ErrorKind) (context : String) : String :=
  match kind with
  | ErrorKind.rateLimited =>
    "We\x27re experiencing high demand right now. Please wait a moment and try again."
  | ErrorKind.unsupportedInput mime =>
    let mimeType :=
      match mime with
      | some m => "\x27" ++ m ++ "\x27"
      | none => "this file type"
    "Sorry, " ++ mimeType ++
      " is not supported. Please upload a standard image format like PNG, JPEG, or WEBP."
  | ErrorKind.safetyRejected =>
    "Your request was blocked for safety reasons. This can happen with certain images or prompts. Please try a different image."
  | ErrorKind.modelRefused =>
    "The AI couldn\x27t create an image for this request. It might be too complex or unusual. Please try a different image or garment."
  | ErrorKind.unknown =>
    "An unexpected error occurred while trying to " ++ context.toLower ++
      ". Please try again. If the problem continues, there might be a temporary issue with the service."

/-- C8: getFriendlyErrorMessage realises exactly the spec classification
in its precedence order — every message is classified by case-insensitive
substring matching (quota / rate limit / 429, then unsupported mime type
with best-effort MIME extraction, then blocked / safety, then model did
not return an image, then the generic context-mentioning fallback), and
the returned string is the message attached to that class. -/
theorem error_classification_C8 (msg ctx : String) :
    getFriendlyErrorMessage msg ctx = friendlyMessageFor (classifyError msg) ctx := by
  unfold getFriendlyErrorMessage classifyError friendlyMessageFor
  by_cases h1 : (jsIncludes msg.toLower "quota" || jsIncludes msg.toLower "rate limit" ||
      jsIncludes msg.toLower "429") = true <;>
    by_cases h2 : jsIncludes msg.toLower "unsupported mime type" = true <;>
    by_cases h3 : (jsIncludes msg.toLower "blocked" ||
      jsIncludes msg.toLower "safety") = true <;>
    by_cases h4 : jsIncludes msg.toLower "model did not return an image" = true <;>
    cases hx : extractMime msg.toList <;>
    simp [h1, h2, h3, h4, hx] <;>
    first
    | rfl
    | decide

/-- C9 counterexample: from a concrete idle state still displaying the
error of an earlier failure, the synchronous redo path of applyGarment
completes successfully (no remote call, cursor advanced) yet leaves
`lastError` non-null, and removeLastGarment likewise leaves it non-null:
the source returns from these paths before `setError(null)` is reached. -/
theorem stale_error_counterexample_C9 :
    (handleGarmentSelect staleErrorState demoGarmentA (Except.ok "unused.png")).2 = false ∧
    (handleGarmentSelect staleErrorState demoGarmentA
        (Except.ok "unused.png")).1.currentOutfitIndex =
      staleErrorState.currentOutfitIndex + 1 ∧
    (handleGarmentSelect staleErrorState demoGarmentA (Except.ok "unused.png")).1.error =
      some "previous failure" ∧
    (handleRemoveLastGarment { staleErrorState with currentOutfitIndex := 1 }).error =
      some "previous failure" := by
  decide

/-- C9 (amended): `lastError` is reset to null when an action initiates a
remote call and stays null when that call succeeds; the purely
synchronous success paths — the redo branch of applyGarment, the pose
cache hit, the rejected/no-op returns, and removeLastGarment — leave
`lastError` unchanged, so a previously displayed error survives them. -/
theorem error_clearing_C9 :
    (∀ s g i s2, handleGarmentSelect s g (Except.ok i) = (s2, true) → s2.error = none) ∧
    (∀ s n i s2, handlePoseSelect s n (Except.ok i) = some (s2, true) → s2.error = none) ∧
    (∀ s i s2, handleEnhanceImage s (Except.ok i) = some (s2, true) → s2.error = none) ∧
    (∀ s g r s2, handleGarmentSelect s g r = (s2, false) → s2.error = s.error) ∧
    (∀ s n r s2, handlePoseSelect s n r = some (s2, false) → s2.error = s.error) ∧
    (∀ s r s2, handleEnhanceImage s r = some (s2, false) → s2.error = s.error) ∧
    (∀ s, (handleRemoveLastGarment s).error = s.error) := by
  refine ⟨?_, ?_, ?_, ?_, ?_, ?_, ?_⟩
  · intro s g i s2 h
    unfold handleGarmentSelect at h
    (repeat' split at h) <;>
      first
      | exact Option.noConfusion h
      | (injection h with h1 h2
         first
         | exact Bool.noConfusion h2
         | (subst h1; rfl))
      | (injection h with h3
         injection h3 with h1 h2
         first
         | exact Bool.noConfusion h2
         | (subst h1; rfl))
      | simp_all
  · intro s n i s2 h
    unfold handlePoseSelect at h
    (repeat' split at h) <;>
      first
      | exact Option.noConfusion h
      | (injection h with h1 h2
         first
         | exact Bool.noConfusion h2
         | (subst h1; rfl))
      | (injection h with h3
         injection h3 with h1 h2
         first
         | exact Bool.noConfusion h2
         | (subst h1; rfl))
      | simp_all
  · intro s i s2 h
    unfold handleEnhanceImage at h
    (repeat' split at h) <;>
      first
      | exact Option.noConfusion h
      | (injection h with h1 h2
         first
         | exact Bool.noConfusion h2
         | (subst h1; rfl))
      | (injection h with h3
         injection h3 with h1 h2
         first
         | exact Bool.noConfusion h2
         | (subst h1; rfl))
      | simp_all
  · intro s g r s2 h
    unfold handleGarmentSelect at h
    cases r <;>
      (repeat' split at h) <;>
      first
      | exact Option.noConfusion h
      | (injection h with h1 h2
         first
         | exact Bool.noConfusion h2
         | (subst h1; rfl))
      | (injection h with h3
         injection h3 with h1 h2
         first
         | exact Bool.noConfusion h2
         | (subst h1; rfl))
      | simp_all
  · intro s n r s2 h
    unfold handlePoseSelect at h
    cases r <;>
      (repeat' split at h) <;>
      first
      | exact Option.noConfusion h
      | (injection h with h1 h2
         first
         | exact Bool.noConfusion h2
         | (subst h1; rfl))
      | (injection h with h3
         injection h3 with h1 h2
         first
         | exact Bool.noConfusion h2
         | (subst h1; rfl))
      | simp_all
  · intro s r s2 h
    unfold handleEnhanceImage at h
    cases r <;>
      (repeat' split at h) <;>
      first
      | exact Option.noConfusion h
      | (injection h with h1 h2
         first
         | exact Bool.noConfusion h2
         | (subst h1; rfl))
      | (injection h with h3
         injection h3 with h1 h2
         first
         | exact Bool.noConfusion h2
         | (subst h1; rfl))
      | simp_all
  · intro s
    unfold handleRemoveLastGarment
    split <;> rfl

/-- C9 witness: a successful remote garment application from a concrete
state ends with a null stored error. -/
theorem error_clearing_C9_witness :
    ((handleGarmentSelect midHistoryState demoGarmentC (Except.ok "w.png")).1).error = none :=
  error_clearing_C9.1 midHistoryState demoGarmentC "w.png"
    (handleGarmentSelect midHistoryState demoGarmentC (Except.ok "w.png")).1 (by decide)

end Stylo
